import Mathlib

/-!
Shallow embedding of the `verbjs/allow` authentication library.

Conventions of the embedding:

* The storage collaborator (three tables `auth_users`, `user_strategies`,
  `auth_sessions`, see `src/db`) is a `Store` of three lists; SQL inserts
  append, `DELETE ... WHERE` filters, `UPDATE ... SET` maps, and the
  `LIMIT 1` joins are determinized as "first match in insertion order".
* Times are epoch instants as `Int` (milliseconds at the store/session level,
  seconds where the source divides `Date.now()` by 1000).
* JavaScript `x || y` on strings, and `if (!x)`, follow JS truthiness:
  `undefined`/`null` and the empty string are falsy; this is `jsTruthy`,
  `jsOrStr`, `jsOrNull` below on `Option String`.
* `JSON.stringify`/`JSON.parse` round-trips on opaque profile snapshots and
  session-data mappings are the identity: profiles are opaque strings,
  session data is the parsed mapping (an association list).
* A thrown JS exception is the `Except.error` channel; an `AuthResult`
  (the structured outcome type of `src/types.ts`) is never an exception.
* `crypto.randomUUID()` values are passed in as explicit fresh-identifier
  arguments; network responses (`fetch`) are passed in as explicit oracle
  records.
-/

namespace Allow

/-- Truthiness of a JS string-or-undefined value: `undefined`, `null` and
the empty string are falsy. -/
def jsTruthy : Option String → Bool
| none => false
| some s => !(s == "")

/-- JS `a || b` on string-or-undefined values. -/
def jsOrStr (a b : Option String) : Option String :=
if jsTruthy a then a else b

/-- JS `a || null` on string-or-undefined values, as used when persisting
optional columns. -/
def jsOrNull (a : Option String) : Option String :=
if jsTruthy a then a else none

/-- Token bundle attached to auth results and strategy links
(`src/types.ts`: `access_token`, `refresh_token`, `expires_at`). -/
structure TokenBundle where
  access_token : Option String
  refresh_token : Option String
  expires_at : Option Int
deriving DecidableEq

/-- User record (`src/types.ts` `AuthUser` / `auth_users` row). The open
profile mapping is kept as an opaque JSON snapshot. The `strategies` list of
the TS type is derived data (loaded by a separate query), not a row field. -/
structure AuthUser where
  id : String
  username : Option String
  email : Option String
  profile : Option String
deriving DecidableEq

/-- Strategy link record (`src/types.ts` `UserStrategy` /
`user_strategies` row). -/
structure UserStrategy where
  id : String
  userId : String
  strategyName : String
  strategyId : String
  profile : Option String
  tokens : Option TokenBundle
deriving DecidableEq

/-- Session record (`src/types.ts` `AuthSession` / `auth_sessions` row).
The `data` mapping is kept parsed, as an association list. -/
structure AuthSession where
  id : String
  userId : String
  data : List (String × String)
  expiresAt : Int
  createdAt : Int
deriving DecidableEq

/-- The storage collaborator: the three tables, rows in insertion order. -/
structure Store where
  users : List AuthUser
  links : List UserStrategy
  sessions : List AuthSession
deriving DecidableEq

/-- Uniform strategy outcome (`src/types.ts` `AuthResult`). -/
structure AuthResult where
  success : Bool
  user : Option AuthUser
  error : Option String
  redirect : Option String
  tokens : Option TokenBundle
deriving DecidableEq

/-- Failure result constructor (`src/strategies/base.ts`). -/
def generateError (message : String) : AuthResult :=
{ success := false, user := none, error := some message,
  redirect := none, tokens := none }

/-- Success result constructor (`src/strategies/base.ts`). -/
def generateSuccess (user : AuthUser) (tokens : Option TokenBundle)
    (redirect : Option String) : AuthResult :=
{ success := true, user := some user, error := none,
  redirect := redirect, tokens := tokens }

namespace Queries

/-- The `createUser` query of `src/db/queries.ts`: inserts a row with
`id: userData.id || crypto.randomUUID()`, `username: userData.username ||
null`, `email: userData.email || null`, and the JSON profile snapshot;
returns the created user. -/
def createUser (st : Store) (userData : AuthUser) (freshId : String) :
    AuthUser × Store :=
  let u : AuthUser :=
    { id := if userData.id == "" then freshId else userData.id,
      username := jsOrNull userData.username,
      email := jsOrNull userData.email,
      profile := userData.profile }
  (u, { st with users := st.users ++ [u] })

/-- The `getUserStrategies` query of `src/db/queries.ts`: all
`user_strategies` rows with the given `user_id`. -/
def getUserStrategies (st : Store) (userId : String) : List UserStrategy :=
  st.links.filter (fun l => l.userId == userId)

/-- The `getUserByStrategy` query of `src/db/queries.ts`: SQL join of
`auth_users` with `user_strategies` on `user_id`, filtered by
`(strategy_name, strategy_id)`, `LIMIT 1`; determinized as the owner of the
first matching link. -/
def getUserByStrategy (st : Store) (strategyName strategyId : String) :
    Option AuthUser :=
  match st.links.find?
      (fun l => l.strategyName == strategyName && l.strategyId == strategyId) with
  | none => none
  | some l => st.users.find? (fun u => u.id == l.userId)

/-- The `createUserStrategy` query of `src/db/queries.ts`: inserts the link
row (with `id: strategyData.id || crypto.randomUUID()`) and returns it. -/
def createUserStrategy (st : Store) (strategyData : UserStrategy)
    (freshId : String) : UserStrategy × Store :=
  let l : UserStrategy :=
    { strategyData with
        id := if strategyData.id == "" then freshId else strategyData.id }
  (l, { st with links := st.links ++ [l] })

/-- The `deleteUserStrategy` query of `src/db/queries.ts`:
`DELETE FROM user_strategies WHERE user_id = $1 AND strategy_name = $2`
(removes every matching row). -/
def deleteUserStrategy (st : Store) (userId strategyName : String) : Store :=
  { st with
      links := st.links.filter
        (fun l => !(l.userId == userId && l.strategyName == strategyName)) }

/-- The `createSession` query of `src/db/queries.ts`: inserts the session
row and returns it. -/
def createSession (st : Store) (sessionData : AuthSession) : AuthSession × Store :=
  (sessionData, { st with sessions := st.sessions ++ [sessionData] })

/-- The `getSession` query of `src/db/queries.ts`: loads the row by id,
then returns `null` when `session.expiresAt <= new Date()` (lazy expiry). -/
def getSession (st : Store) (sessionId : String) (now : Int) :
    Option AuthSession :=
  match st.sessions.find? (fun s => s.id == sessionId) with
  | none => none
  | some s => if s.expiresAt ≤ now then none else some s

/-- The `updateSession` query of `src/db/queries.ts`:
`UPDATE auth_sessions SET data = $1 WHERE id = $2` — full replacement of the
data column, all other columns untouched. -/
def updateSession (st : Store) (sessionId : String)
    (data : List (String × String)) : Store :=
  { st with
      sessions := st.sessions.map
        (fun s => if s.id == sessionId then { s with data := data } else s) }

/-- The `deleteSession` query of `src/db/queries.ts`:
`DELETE FROM auth_sessions WHERE id = $1`. -/
def deleteSession (st : Store) (sessionId : String) : Store :=
  { st with sessions := st.sessions.filter (fun s => !(s.id == sessionId)) }

end Queries

/-- Orchestrator instance state relevant to the modelled operations
(`src/allow.ts` `AllowInstance` plus the consumed configuration fields). -/
structure AllowInstance where
  databaseInitialized : Bool
  sessionDuration : Option Int
deriving DecidableEq

/-- JS `allow.config.sessionDuration || 86400000` (24 hours default;
`0` is falsy and also falls back). -/
def sessionDurationOf (allow : AllowInstance) : Int :=
match allow.sessionDuration with
| some d => if d = 0 then 86400000 else d
| none => 86400000

/-- The `createSession` operation of `src/allow.ts`: builds the session with
a random id and `expiresAt = now + duration`, persists it only when the
database is initialized, and returns it either way. -/
def createSession (allow : AllowInstance) (st : Store) (user : AuthUser)
    (data : List (String × String)) (freshSessionId : String) (now : Int) :
    AuthSession × Store :=
  let session : AuthSession :=
    { id := freshSessionId, userId := user.id, data := data,
      expiresAt := now + sessionDurationOf allow, createdAt := now }
  if allow.databaseInitialized then
    (session, (Queries.createSession st session).2)
  else
    (session, st)

/-- The `getSession` operation of `src/allow.ts`: `null` without a database,
otherwise the (lazily expired) stored session. -/
def getSession (allow : AllowInstance) (st : Store) (sessionId : String)
    (now : Int) : Option AuthSession :=
  if allow.databaseInitialized then Queries.getSession st sessionId now
  else none

/-- The `updateSession` operation of `src/allow.ts`: no-op without a
database. -/
def updateSession (allow : AllowInstance) (st : Store) (sessionId : String)
    (data : List (String × String)) : Store :=
  if allow.databaseInitialized then Queries.updateSession st sessionId data
  else st

/-- The `destroySession` operation of `src/allow.ts`: no-op without a
database. -/
def destroySession (allow : AllowInstance) (st : Store) (sessionId : String) :
    Store :=
  if allow.databaseInitialized then Queries.deleteSession st sessionId
  else st

/-- The `getUserStrategies` operation of `src/allow.ts`: empty list without
a database. -/
def getUserStrategies (allow : AllowInstance) (st : Store) (userId : String) :
    List UserStrategy :=
  if allow.databaseInitialized then Queries.getUserStrategies st userId
  else []

/-- The `linkStrategy` operation of `src/allow.ts`: **throws**
`Error("Database required for linking strategies")` when no database is
initialized (the `Except.error` channel models the raised exception);
otherwise inserts a fresh link row. -/
def linkStrategy (allow : AllowInstance) (st : Store) (freshLinkId : String)
    (userId strategyName strategyId : String) (profile : Option String)
    (tokens : Option TokenBundle) : Except String (UserStrategy × Store) :=
  if allow.databaseInitialized then
    Except.ok (Queries.createUserStrategy st
      { id := freshLinkId, userId := userId, strategyName := strategyName,
        strategyId := strategyId, profile := profile, tokens := tokens }
      freshLinkId)
  else
    Except.error "Database required for linking strategies"

/-- The `unlinkStrategy` operation of `src/allow.ts`: throws without a
database, otherwise deletes every link row matching
`(user_id, strategy_name)`. -/
def unlinkStrategy (allow : AllowInstance) (st : Store)
    (userId strategyName : String) : Except String Store :=
  if allow.databaseInitialized then
    Except.ok (Queries.deleteUserStrategy st userId strategyName)
  else
    Except.error "Database required for unlinking strategies"

/-- The user-resolution step of the `callback` handler of `src/allow.ts`
(its `if (allow.databaseInitialized)` branch): look up the owning user of
`(strategyName, result.user.id)`; reuse it when found, otherwise create a
user from the candidate identity and link it. Exceptions from
`linkStrategy` propagate out of the handler. -/
def callbackResolveUser (allow : AllowInstance) (st : Store)
    (strategyName : String) (candidate : AuthUser)
    (tokens : Option TokenBundle) (freshUserId freshLinkId : String) :
    Except String (AuthUser × Store) :=
  match Queries.getUserByStrategy st strategyName candidate.id with
  | some existingUser => Except.ok (existingUser, st)
  | none =>
      let created := Queries.createUser st candidate freshUserId
      (linkStrategy allow created.2 freshLinkId created.1.id strategyName
          candidate.id candidate.profile tokens).map
        (fun linked => (created.1, linked.2))

/-- HTTP responses the modelled handlers produce. -/
inductive HandlerResponse where
| jsonOk : HandlerResponse
| badRequest : String → HandlerResponse
deriving DecidableEq

/-- The `unlink` handler of `src/allow.ts` after the current user has been
resolved from the session cookie: refuses with HTTP 400
"Cannot unlink last authentication method" when the user has at most one
link, otherwise deletes by `(user_id, strategy_name)` and reports success. -/
def unlinkHandler (allow : AllowInstance) (st : Store)
    (userId strategyName : String) : Except String (HandlerResponse × Store) :=
  let strategies := getUserStrategies allow st userId
  if strategies.length ≤ 1 then
    Except.ok (HandlerResponse.badRequest "Cannot unlink last authentication method", st)
  else
    (unlinkStrategy allow st userId strategyName).map
      (fun st2 => (HandlerResponse.jsonOk, st2))

namespace OAuth

/-- OAuth strategy configuration (`src/types.ts` `OAuthConfig`; the three
endpoint URLs are always supplied by the presets). -/
structure OAuthConfig where
  clientId : String
  clientSecret : String
  callbackURL : String
  scope : Option (List String)
  authorizeURL : String
  tokenURL : String
  userInfoURL : String
deriving DecidableEq

/-- Characters `URLSearchParams` serialization leaves unescaped
(`application/x-www-form-urlencoded`): alphanumerics and `*` `-` `.` `_`. -/
def isUrlUnreserved (c : Char) : Bool :=
  c.isAlphanum || c == '*' || c == '-' || c == '.' || c == '_'

/-- Uppercase hexadecimal digit for a value below 16. -/
def hexDigit (n : Nat) : Char :=
  if n < 10 then Char.ofNat (48 + n) else Char.ofNat (55 + n)

/-- UTF-8 bytes of a character, as naturals. -/
def utf8Bytes (c : Char) : List Nat :=
  if c.toNat < 128 then [c.toNat]
  else if c.toNat < 2048 then [192 + c.toNat / 64, 128 + c.toNat % 64]
  else if c.toNat < 65536 then
    [224 + c.toNat / 4096, 128 + (c.toNat / 64) % 64, 128 + c.toNat % 64]
  else
    [240 + c.toNat / 262144, 128 + (c.toNat / 4096) % 64, 128 + (c.toNat / 64) % 64,
     128 + c.toNat % 64]

/-- Encoding of one character under `URLSearchParams` serialization: space becomes `+`,
unreserved characters pass through, everything else is percent-encoded
byte-wise. -/
def encodeChar (c : Char) : List Char :=
  if c == ' ' then ['+']
  else if isUrlUnreserved c then [c]
  else (utf8Bytes c).flatMap (fun b => ['%', hexDigit (b / 16), hexDigit (b % 16)])

/-- Encoding of a parameter value under `URLSearchParams` serialization. -/
def urlencode (s : String) : String :=
  String.mk (s.data.flatMap encodeChar)

/-- JS `config.scope?.join(" ") || ""`. -/
def scopeJoin (scope : Option (List String)) : String :=
match scope with
| some l => String.intercalate " " l
| none => ""

/-- The `buildAuthURL` helper of `src/strategies/oauth.ts`: serializes the
five parameters in insertion order (`client_id`, `redirect_uri`,
`response_type`, `state`, `scope`) against the authorize endpoint. -/
def buildAuthURL (config : OAuthConfig) (state : String) : String :=
  config.authorizeURL ++ "?" ++
    "client_id=" ++ urlencode config.clientId ++
    "&redirect_uri=" ++ urlencode config.callbackURL ++
    "&response_type=code" ++
    "&state=" ++ urlencode state ++
    "&scope=" ++ urlencode (scopeJoin config.scope)

/-- Raw provider profile as consumed by `mapProfileToUser` of
`src/strategies/oauth.ts`; `raw` is the opaque full snapshot. -/
structure OAuthProfile where
  id : Option String
  sub : Option String
  username : Option String
  login : Option String
  preferred_username : Option String
  email : Option String
  raw : String
deriving DecidableEq

/-- The `mapProfileToUser` helper of `src/strategies/oauth.ts`
(`id: profile.id || profile.sub`, `username: profile.username ||
profile.login || profile.preferred_username`). A fully absent id maps to
the empty string, JS `undefined`. -/
def mapProfileToUser (p : OAuthProfile) : AuthUser :=
  { id := match jsOrStr p.id p.sub with | some s => s | none => "",
    username := jsOrStr (jsOrStr p.username p.login) p.preferred_username,
    email := p.email,
    profile := some p.raw }

/-- Response of the provider token endpoint as observed by
`exchangeCodeForToken`: HTTP `ok` flag plus the parsed JSON body fields. -/
structure TokenResponse where
  ok : Bool
  access_token : Option String
  refresh_token : Option String
  expires_in : Option Int
deriving DecidableEq

/-- Response of the provider user-info endpoint as observed by
`getUserProfile`: HTTP `ok` flag plus the parsed JSON body (`none` for a
`null` body). -/
structure ProfileResponse where
  ok : Bool
  body : Option OAuthProfile
deriving DecidableEq

/-- Network oracle for one callback run: what the two `fetch` calls of
`src/strategies/oauth.ts` would observe. -/
structure Network where
  tokenResponse : TokenResponse
  profileResponse : ProfileResponse
deriving DecidableEq

/-- Query parameters of the inbound callback request. -/
structure OAuthQuery where
  code : Option String
  state : Option String
deriving DecidableEq

/-- The `authenticate` entry of `src/strategies/oauth.ts`: builds the
authorize redirect from the configuration and the fresh `state` value.
The second component is the list of network fetches performed: none. -/
def authenticate (config : OAuthConfig) (state : String) :
    AuthResult × List String :=
  ({ success := true, user := none, error := none,
     redirect := some (buildAuthURL config state), tokens := none }, [])

/-- The `callback` entry of `src/strategies/oauth.ts`. Control flow of the
source: missing/falsy `code` fails first; then a `try` block performs the
token exchange (`exchangeCodeForToken` **throws** on a non-2xx response,
so that case lands in the `catch` and yields "OAuth callback failed"),
fails with "Failed to obtain access token" when the 2xx body carries no
access token, fetches the profile (again throwing on non-2xx), fails with
"Failed to get user profile" on a null body, and otherwise succeeds with
the mapped candidate identity and token bundle
(`expires_at = now + expires_in * 1000` when supplied). The second
component lists the fetched endpoint URLs. -/
def callback (config : OAuthConfig) (q : OAuthQuery) (net : Network)
    (now : Int) : AuthResult × List String :=
  if !(jsTruthy q.code) then (generateError "Missing authorization code", [])
  else if !net.tokenResponse.ok then
    (generateError "OAuth callback failed", [config.tokenURL])
  else if !(jsTruthy net.tokenResponse.access_token) then
    (generateError "Failed to obtain access token", [config.tokenURL])
  else if !net.profileResponse.ok then
    (generateError "OAuth callback failed", [config.tokenURL, config.userInfoURL])
  else
    match net.profileResponse.body with
    | none =>
        (generateError "Failed to get user profile",
         [config.tokenURL, config.userInfoURL])
    | some profileBody =>
        (generateSuccess (mapProfileToUser profileBody)
          (some { access_token := net.tokenResponse.access_token,
                  refresh_token := net.tokenResponse.refresh_token,
                  expires_at := net.tokenResponse.expires_in.map
                    (fun e => now + e * 1000) })
          none,
         [config.tokenURL, config.userInfoURL])

end OAuth

namespace JWT

/-- Decoded JWT payload as consumed by `verifyToken` and
`mapPayloadToUser` of `src/strategies/jwt.ts`; `raw` is the opaque full
claim set. -/
structure JWTPayload where
  exp : Option Int
  sub : Option String
  id : Option String
  username : Option String
  preferred_username : Option String
  email : Option String
  raw : String
deriving DecidableEq

/-- Inbound request fields consumed by `extractToken`. -/
structure JWTRequest where
  authorizationHeader : Option String
  queryToken : Option String
  bodyToken : Option String
deriving DecidableEq

/-- Character-level splitter implementing JS `token.split(".")`. -/
def splitDotAux : List Char → List Char → List String
| [], acc => [String.mk acc.reverse]
| c :: rest, acc =>
    if c == '.' then String.mk acc.reverse :: splitDotAux rest []
    else splitDotAux rest (c :: acc)

/-- JS `token.split(".")`. -/
def splitDot (s : String) : List String := splitDotAux s.data []

/-- The `extractToken` helper of `src/strategies/jwt.ts`: the
`Authorization: Bearer ` header wins (the token is `substring(7)`), else
`req.query?.token || req.body?.token || null`. -/
def extractToken (req : JWTRequest) : Option String :=
  match req.authorizationHeader with
  | some h =>
      if h.data.take 7 == "Bearer ".data then some (String.mk (h.data.drop 7))
      else jsOrStr req.queryToken req.bodyToken
  | none => jsOrStr req.queryToken req.bodyToken

/-- The body of the `try` block of `verifyToken` in `src/strategies/jwt.ts`:
destructure the three dot-separated segments (a falsy segment throws
"Invalid token format"), decode the payload (`JSON.parse(atob(payload))`,
modelled by the `decode` oracle, whose failure throws a parse error), and
throw "Token expired" when a truthy `exp` claim is below `Date.now()/1000`. -/
def verifyTokenBody (decode : String → Option JWTPayload) (token : String)
    (nowSec : Int) : Except String JWTPayload :=
  if (splitDot token).getD 0 "" == "" || (splitDot token).getD 1 "" == ""
      || (splitDot token).getD 2 "" == "" then
    Except.error "Invalid token format"
  else
    match decode ((splitDot token).getD 1 "") with
    | none => Except.error "JSON parse error"
    | some p =>
        match p.exp with
        | some e =>
            if e ≠ 0 ∧ e < nowSec then Except.error "Token expired"
            else Except.ok p
        | none => Except.ok p

/-- The `verifyToken` helper of `src/strategies/jwt.ts`: its `catch`
swallows **every** failure of the body — including "Token expired" — and
rethrows the generic `Error("Invalid token")`. -/
def verifyToken (decode : String → Option JWTPayload) (token : String)
    (nowSec : Int) : Except String JWTPayload :=
  match verifyTokenBody decode token nowSec with
  | Except.ok p => Except.ok p
  | Except.error _ => Except.error "Invalid token"

/-- The `mapPayloadToUser` helper of `src/strategies/jwt.ts`. -/
def mapPayloadToUser (p : JWTPayload) : AuthUser :=
  { id := match jsOrStr p.sub p.id with | some s => s | none => "",
    username := jsOrStr p.username p.preferred_username,
    email := p.email,
    profile := some p.raw }

/-- The `authenticate` entry of `src/strategies/jwt.ts`: a falsy extracted
token fails "No JWT token provided"; any `verifyToken` failure is caught
and surfaced as the single failure "Invalid JWT token". -/
def authenticate (decode : String → Option JWTPayload) (req : JWTRequest)
    (nowSec : Int) : AuthResult :=
  match extractToken req with
  | none => generateError "No JWT token provided"
  | some t =>
      if t == "" then generateError "No JWT token provided"
      else
        match verifyToken decode t nowSec with
        | Except.error _ => generateError "Invalid JWT token"
        | Except.ok p => generateSuccess (mapPayloadToUser p) none none

end JWT

namespace Local

/-- Local strategy configuration (`src/types.ts` `LocalConfig`). The
verifier may resolve a user, resolve `null` ("no match"), or reject
(`Except.error`). -/
structure LocalConfig where
  usernameField : Option String
  passwordField : Option String
  verifyCredentials : Option (String → String → Except Unit (Option AuthUser))

/-- Field lookup in the parsed request body (`req.body?.[field]`; the body
itself may be absent). -/
def bodyField (body : Option (List (String × String))) (field : String) :
    Option String :=
  match body with
  | none => none
  | some b => b.lookup field

/-- Destructuring default of `{ usernameField = "username" } = config`
(applies only to an absent field, an empty string stays). -/
def fieldOrDefault (f : Option String) (d : String) : String :=
  match f with
  | some x => x
  | none => d

/-- Coercion of the guarded (truthy) field value to the plain string the
verifier receives. -/
def strOrEmpty (o : Option String) : String :=
  match o with
  | some s => s
  | none => ""

/-- The `authenticate` entry of the local strategy
(`src/strategies/jwt.ts` lines 92-122, the variant matching
`LocalConfig.verifyCredentials` of `src/types.ts`): falsy username or
password fails "Missing username or password"; an unconfigured verifier
fails "verifyCredentials not configured"; a verifier resolving `null`
fails "Invalid credentials"; a rejecting verifier is caught and fails
"Authentication failed" (never re-raised — the return type is
`AuthResult`, not `Except`); otherwise success with the resolved user. -/
def authenticate (config : LocalConfig)
    (body : Option (List (String × String))) : AuthResult :=
  if !(jsTruthy (bodyField body (fieldOrDefault config.usernameField "username")))
      || !(jsTruthy (bodyField body (fieldOrDefault config.passwordField "password"))) then
    generateError "Missing username or password"
  else
    match config.verifyCredentials with
    | none => generateError "verifyCredentials not configured"
    | some verify =>
        match verify
            (strOrEmpty (bodyField body (fieldOrDefault config.usernameField "username")))
            (strOrEmpty (bodyField body (fieldOrDefault config.passwordField "password"))) with
        | Except.error _ => generateError "Authentication failed"
        | Except.ok none => generateError "Invalid credentials"
        | Except.ok (some user) => generateSuccess user none none

end Local

/-- Session fixture for the C3 witness: expired one second before the read
instant. -/
def c3Session : AuthSession :=
  { id := "s1", userId := "u1", data := [], expiresAt := 0, createdAt := 0 }

/-- Store fixture for the C3 witness. -/
def c3Store : Store := { users := [], links := [], sessions := [c3Session] }

/-- Instance fixture without a configured database. -/
def c9Allow : AllowInstance := { databaseInitialized := false, sessionDuration := none }

/-- Empty store fixture. -/
def c9Store : Store := { users := [], links := [], sessions := [] }

/-- User fixture for C2. -/
def c2User : AuthUser :=
  { id := "user-1", username := some "alice", email := none, profile := none }

/-- First github link of the C2 fixture user. -/
def c2LinkA : UserStrategy :=
  { id := "l-a", userId := "user-1", strategyName := "github", strategyId := "gh-a",
    profile := none, tokens := none }

/-- Second github link of the C2 fixture user (the schema has no unique
constraint preventing this; the `link` handler inserts unconditionally). -/
def c2LinkB : UserStrategy :=
  { id := "l-b", userId := "user-1", strategyName := "github", strategyId := "gh-b",
    profile := none, tokens := none }

/-- Instance fixture with a configured database. -/
def c2Allow : AllowInstance := { databaseInitialized := true, sessionDuration := none }

/-- Store fixture for the C2 counterexample: one user, two links sharing
the strategy name "github". -/
def c2Store : Store := { users := [c2User], links := [c2LinkA, c2LinkB], sessions := [] }

/-- A link with a distinct strategy name for the C2 witness. -/
def c2LinkLocal : UserStrategy :=
  { id := "l-c", userId := "user-1", strategyName := "local", strategyId := "alice",
    profile := none, tokens := none }

/-- Store fixture with exactly one link. -/
def c2StoreOne : Store := { users := [c2User], links := [c2LinkA], sessions := [] }

/-- Store fixture with two links of distinct strategy names. -/
def c2StoreTwo : Store :=
  { users := [c2User], links := [c2LinkA, c2LinkLocal], sessions := [] }

/-- OAuth configuration fixture for C4. -/
def c4Config : OAuth.OAuthConfig :=
  { clientId := "cid", clientSecret := "sec", callbackURL := "http://h/cb",
    scope := none, authorizeURL := "https://p/authorize",
    tokenURL := "https://p/token", userInfoURL := "https://p/user" }

/-- Concrete payload decoder for the C5 counterexample: the segment "p"
decodes (as `JSON.parse(atob(...))` would) to a payload whose `exp` is 1. -/
def c5Decode : String → Option JWT.JWTPayload := fun s =>
  if s == "p" then
    some { exp := some 1, sub := some "subj", id := none, username := none,
           preferred_username := none, email := none, raw := "claims" }
  else none

/-- Request fixture carrying the bearer token "h.p.s". -/
def c5Request : JWT.JWTRequest :=
  { authorizationHeader := some "Bearer h.p.s", queryToken := none,
    bodyToken := none }

/-- Verifier fixture resolving a user from the submitted username. -/
def c6VerifyOk : String → String → Except Unit (Option AuthUser) :=
  fun u _ => Except.ok (some { id := "user-1", username := some u,
                               email := none, profile := none })

/-- Verifier fixture resolving `null` (no match). -/
def c6VerifyNull : String → String → Except Unit (Option AuthUser) :=
  fun _ _ => Except.ok none

/-- Verifier fixture that raises. -/
def c6VerifyThrow : String → String → Except Unit (Option AuthUser) :=
  fun _ _ => Except.error ()

/-- Request body fixture carrying both default-named fields. -/
def c6Body : Option (List (String × String)) :=
  some [("username", "u"), ("password", "p")]

/-- Existing user fixture for the C1 witness, owner of the provider
identity gh-9. -/
def c1User : AuthUser :=
  { id := "user-1", username := some "alice", email := none, profile := none }

/-- Link fixture binding c1User to (github, gh-9). -/
def c1Link : UserStrategy :=
  { id := "l-1", userId := "user-1", strategyName := "github", strategyId := "gh-9",
    profile := none, tokens := none }

/-- Store fixture in which (github, gh-9) is already linked. -/
def c1Store : Store := { users := [c1User], links := [c1Link], sessions := [] }

/-- Candidate identity fixture produced by the github callback for
provider id gh-9. -/
def c1Candidate : AuthUser :=
  { id := "gh-9", username := some "alice", email := some "a@x",
    profile := some "snapshot" }

/-- Empty store fixture for the creation case of the C1 witness. -/
def c1EmptyStore : Store := { users := [], links := [], sessions := [] }

/-- Substring containment, used to state the redirect-URL claims. -/
def strContains (s pat : String) : Prop :=
  ∃ pre suf, s = (pre ++ pat) ++ suf

/-- OAuth configuration fixture for C7, with the concrete `clientId`,
`callbackURL` and `scope` of the spec's example. -/
def c7Config (cs aurl tu uiu : String) : OAuth.OAuthConfig :=
  { clientId := "cid", clientSecret := cs, callbackURL := "http://h/cb",
    scope := some ["a", "b"], authorizeURL := aurl, tokenURL := tu,
    userInfoURL := uiu }

/-! Theorems settling the claims. -/

/-- Session data replacement commutes with lookup by id: updating rewrites
exactly the matching rows' `data` column. -/
lemma find?_updateSession (l : List AuthSession) (sessionId : String)
    (d : List (String × String)) :
    (l.map (fun s => if s.id == sessionId then { s with data := d } else s)).find?
        (fun s => s.id == sessionId)
      = (l.find? (fun s => s.id == sessionId)).map (fun s => { s with data := d }) := by
  induction l with
  | nil => rfl
  | cons hd tl ih =>
    cases hb : (hd.id == sessionId) with
    | true =>
      rw [List.map_cons, if_pos hb,
        @List.find?_cons_of_pos _ (fun s => s.id == sessionId)
          ({ hd with data := d } : AuthSession) _ hb,
        @List.find?_cons_of_pos _ (fun s => s.id == sessionId) hd _ hb]
      rfl
    | false =>
      rw [List.map_cons, if_neg (by simp [hb]),
        @List.find?_cons_of_neg _ (fun s => s.id == sessionId) hd _ (by simp [hb]),
        @List.find?_cons_of_neg _ (fun s => s.id == sessionId) hd _ (by simp [hb])]
      exact ih

/-- C3: for every session id, `getSession` returns absent whenever the
stored session's `expiresAt` is at or before the read time, even though the
row is still present; the orchestrator-level `getSession` agrees for every
instance. -/
theorem c3_getSession_lazy_expiry (st : Store) (sessionId : String)
    (now : Int) (s : AuthSession)
    (hfind : st.sessions.find? (fun x => x.id == sessionId) = some s)
    (hexp : s.expiresAt ≤ now) :
    Queries.getSession st sessionId now = none
    ∧ ∀ allow : AllowInstance, getSession allow st sessionId now = none := by
  have hq : Queries.getSession st sessionId now = none := by
    unfold Queries.getSession
    rw [hfind]
    simp [hexp]
  refine ⟨hq, fun allow => ?_⟩
  unfold getSession
  cases allow.databaseInitialized <;> simp [hq]

/-- Witness for C3: a session whose expiry lies 1000 ms before the read
time is stored yet absent on `get`. -/
theorem c3_getSession_lazy_expiry_witness :
    c3Store.sessions.find? (fun x => x.id == "s1") = some c3Session
    ∧ c3Session.expiresAt ≤ 1000
    ∧ Queries.getSession c3Store "s1" 1000 = none :=
  ⟨by decide, by decide,
    (c3_getSession_lazy_expiry c3Store "s1" 1000 c3Session (by decide) (by decide)).1⟩

/-- C8: for every session, `updateSession` replaces the stored `data`
mapping exactly (last-write-wins, no merge) and leaves `userId`,
`expiresAt` and `createdAt` unchanged, as seen both on the stored row and
through a subsequent `getSession`. -/
theorem c8_updateSession_replaces_data_only (st : Store) (sessionId : String)
    (d : List (String × String)) (now : Int) :
    (Queries.updateSession st sessionId d).sessions.find? (fun s => s.id == sessionId)
        = (st.sessions.find? (fun s => s.id == sessionId)).map
            (fun s => { s with data := d })
    ∧ Queries.getSession (Queries.updateSession st sessionId d) sessionId now
        = (Queries.getSession st sessionId now).map (fun s => { s with data := d }) := by
  have h := find?_updateSession st.sessions sessionId d
  refine ⟨h, ?_⟩
  unfold Queries.getSession Queries.updateSession
  rw [show ({ st with
      sessions := st.sessions.map
        (fun s => if s.id == sessionId then { s with data := d } else s) } : Store).sessions
    = st.sessions.map (fun s => if s.id == sessionId then { s with data := d } else s) from rfl]
  rw [h]
  cases hf : st.sessions.find? (fun s => s.id == sessionId) with
  | none => rfl
  | some s =>
    by_cases he : s.expiresAt ≤ now <;> simp [he]

/-- Counterexample for C9: with no storage collaborator configured, the
link operation of `src/allow.ts` raises
`Error("Database required for linking strategies")` — the `Except.error`
exception channel — rather than returning any `AuthResult` failure. -/
theorem c9_counterexample :
    linkStrategy c9Allow c9Store "link-1" "user-1" "github" "gh-1" none none
      = Except.error "Database required for linking strategies" := rfl

/-- C9 as amended: for every call to the link operation with no storage
collaborator configured, the operation throws
`Error("Database required for linking strategies")`; the failure crosses
the boundary as a raised exception, not as an `AuthResult` failure. -/
theorem c9_link_requires_database (st : Store) (dur : Option Int)
    (freshLinkId userId strategyName strategyId : String)
    (profile : Option String) (tokens : Option TokenBundle) :
    linkStrategy { databaseInitialized := false, sessionDuration := dur } st
        freshLinkId userId strategyName strategyId profile tokens
      = Except.error "Database required for linking strategies" := rfl

/-- C10: with no database configured, `createSession` still returns the
fresh session (requested user id, data, computed expiry) but leaves the
store untouched, `getSession` returns absent for every id,
`updateSession` and `destroySession` have no effect, and
`getUserStrategies` returns the empty list. -/
theorem c10_no_database_behavior (dur : Option Int) (st : Store)
    (user : AuthUser) (data : List (String × String))
    (freshSessionId : String) (now : Int) (sessionId userId : String) :
    createSession { databaseInitialized := false, sessionDuration := dur } st
        user data freshSessionId now
      = ({ id := freshSessionId, userId := user.id, data := data,
           expiresAt := now + sessionDurationOf
             { databaseInitialized := false, sessionDuration := dur },
           createdAt := now }, st)
    ∧ getSession { databaseInitialized := false, sessionDuration := dur } st
        sessionId now = none
    ∧ updateSession { databaseInitialized := false, sessionDuration := dur } st
        sessionId data = st
    ∧ destroySession { databaseInitialized := false, sessionDuration := dur } st
        sessionId = st
    ∧ getUserStrategies { databaseInitialized := false, sessionDuration := dur } st
        userId = [] :=
  ⟨rfl, rfl, rfl, rfl, rfl⟩

/-- Deleting by two boolean keys then re-filtering by the first: the
surviving count is the original count minus the number of rows matching
both keys (which never exceeds the original count). -/
lemma filter_delete_length (l : List UserStrategy) (p q : UserStrategy → Bool) :
    ((l.filter (fun x => !(p x && q x))).filter p).length
        = (l.filter p).length - (l.filter (fun x => p x && q x)).length
    ∧ (l.filter (fun x => p x && q x)).length ≤ (l.filter p).length := by
  induction l with
  | nil => exact ⟨rfl, Nat.le_refl 0⟩
  | cons hd tl ih =>
    obtain ⟨ih1, ih2⟩ := ih
    cases hp : p hd <;> cases hq : q hd
    · rw [List.filter_cons_of_pos (by simp [hp]),
        List.filter_cons_of_neg (by simp [hp]),
        List.filter_cons_of_neg (by simp [hp]),
        List.filter_cons_of_neg (by simp [hp])]
      exact ⟨ih1, ih2⟩
    · rw [List.filter_cons_of_pos (by simp [hp]),
        List.filter_cons_of_neg (by simp [hp]),
        List.filter_cons_of_neg (by simp [hp]),
        List.filter_cons_of_neg (by simp [hp])]
      exact ⟨ih1, ih2⟩
    · rw [List.filter_cons_of_pos (by simp [hp, hq]),
        List.filter_cons_of_pos hp,
        List.filter_cons_of_pos hp,
        List.filter_cons_of_neg (by simp [hp, hq])]
      refine ⟨?_, ?_⟩ <;> simp only [List.length_cons] <;> omega
    · rw [List.filter_cons_of_neg (by simp [hp, hq]),
        List.filter_cons_of_pos hp,
        List.filter_cons_of_pos (by simp [hp, hq])]
      refine ⟨?_, ?_⟩ <;> simp only [List.length_cons] <;> omega

/-- Counterexample for C2: a user with two links both named "github" has
link count 2 (≥ 2), yet unlink succeeds and deletes **both** rows — the
count drops to 0, not by exactly one, stranding the user with zero links. -/
theorem c2_counterexample :
    (getUserStrategies c2Allow c2Store "user-1").length = 2
    ∧ unlinkHandler c2Allow c2Store "user-1" "github"
        = Except.ok (HandlerResponse.jsonOk,
            { users := [c2User], links := [], sessions := [] })
    ∧ (getUserStrategies c2Allow
        { users := [c2User], links := [], sessions := [] } "user-1").length = 0 :=
  ⟨by decide, rfl, by decide⟩

/-- C2 as amended: unlink refuses with 400 "Cannot unlink last
authentication method" when the user has exactly one link (store
untouched); with at least two links it succeeds but deletes **every** link
of the user carrying the given strategy name, so the link count drops by
the number of matching links — exactly one only when exactly one of the
user's links bears that name — and can even reach zero. -/
theorem c2_unlink_guard_and_bulk_delete (allow : AllowInstance) (st : Store)
    (userId strategyName : String) :
    ((getUserStrategies allow st userId).length = 1 →
      unlinkHandler allow st userId strategyName
        = Except.ok
            (HandlerResponse.badRequest "Cannot unlink last authentication method", st))
    ∧ (2 ≤ (getUserStrategies allow st userId).length →
        unlinkHandler allow st userId strategyName
            = Except.ok (HandlerResponse.jsonOk,
                Queries.deleteUserStrategy st userId strategyName)
        ∧ (Queries.getUserStrategies
              (Queries.deleteUserStrategy st userId strategyName) userId).length
            = (Queries.getUserStrategies st userId).length
              - (st.links.filter
                  (fun l => l.userId == userId && l.strategyName == strategyName)).length) := by
  constructor
  · intro h1
    unfold unlinkHandler
    rw [if_pos (by omega)]
  · intro h2
    cases hdb : allow.databaseInitialized with
    | false =>
      exfalso
      have : getUserStrategies allow st userId = [] := by
        unfold getUserStrategies
        rw [hdb]
        rfl
      rw [this] at h2
      simp at h2
    | true =>
      constructor
      · unfold unlinkHandler
        rw [if_neg (by omega)]
        unfold unlinkStrategy
        rw [hdb]
        rfl
      · exact (filter_delete_length st.links
          (fun l => l.userId == userId) (fun l => l.strategyName == strategyName)).1

/-- Witness for the amended C2: the single-link guard fires, and with two
distinctly named links unlink succeeds with the bulk-delete count law. -/
theorem c2_unlink_guard_and_bulk_delete_witness :
    unlinkHandler c2Allow c2StoreOne "user-1" "github"
        = Except.ok
            (HandlerResponse.badRequest "Cannot unlink last authentication method",
             c2StoreOne)
    ∧ unlinkHandler c2Allow c2StoreTwo "user-1" "github"
        = Except.ok (HandlerResponse.jsonOk,
            Queries.deleteUserStrategy c2StoreTwo "user-1" "github")
    ∧ (Queries.getUserStrategies
          (Queries.deleteUserStrategy c2StoreTwo "user-1" "github") "user-1").length
        = (Queries.getUserStrategies c2StoreTwo "user-1").length
          - (c2StoreTwo.links.filter
              (fun l => l.userId == "user-1" && l.strategyName == "github")).length :=
  ⟨(c2_unlink_guard_and_bulk_delete c2Allow c2StoreOne "user-1" "github").1 (by decide),
    ((c2_unlink_guard_and_bulk_delete c2Allow c2StoreTwo "user-1" "github").2 (by decide)).1,
    ((c2_unlink_guard_and_bulk_delete c2Allow c2StoreTwo "user-1" "github").2 (by decide)).2⟩

/-- Counterexample for C4: with a `code` present but the token endpoint
answering non-2xx, `exchangeCodeForToken` throws and the callback's
catch-all yields "OAuth callback failed" (the `OAuthCallbackFailed`
message), not the token-exchange failure message "Failed to obtain access
token". -/
theorem c4_counterexample :
    (OAuth.callback c4Config { code := some "c", state := none }
        { tokenResponse :=
            { ok := false, access_token := none, refresh_token := none,
              expires_in := none },
          profileResponse := { ok := false, body := none } } 0).1
      = generateError "OAuth callback failed"
    ∧ generateError "OAuth callback failed"
        ≠ generateError "Failed to obtain access token" :=
  ⟨rfl, by decide⟩

/-- C4 as amended: a callback without a `code` fails
`MissingAuthorizationCode` ("Missing authorization code"); a 2xx token
response lacking an access token fails `TokenExchangeFailed` ("Failed to
obtain access token"); but a non-2xx token response makes the exchange
throw, and the catch-all converts it to `OAuthCallbackFailed`
("OAuth callback failed"), not `TokenExchangeFailed`. -/
theorem c4_callback_error_paths (config : OAuth.OAuthConfig)
    (q : OAuth.OAuthQuery) (net : OAuth.Network) (now : Int) :
    (q.code = none →
      (OAuth.callback config q net now).1 = generateError "Missing authorization code")
    ∧ (jsTruthy q.code = true → net.tokenResponse.ok = true →
        jsTruthy net.tokenResponse.access_token = false →
        (OAuth.callback config q net now).1
          = generateError "Failed to obtain access token")
    ∧ (jsTruthy q.code = true → net.tokenResponse.ok = false →
        (OAuth.callback config q net now).1
          = generateError "OAuth callback failed") := by
  refine ⟨fun h1 => ?_, fun hc hok htok => ?_, fun hc hok => ?_⟩
  · unfold OAuth.callback
    rw [h1]
    rfl
  · unfold OAuth.callback
    rw [hc, hok, htok]
    rfl
  · unfold OAuth.callback
    rw [hc, hok]
    rfl

/-- Witness for the amended C4: all three error paths at concrete inputs. -/
theorem c4_callback_error_paths_witness :
    (OAuth.callback c4Config { code := none, state := none }
        { tokenResponse :=
            { ok := true, access_token := some "t", refresh_token := none,
              expires_in := none },
          profileResponse := { ok := true, body := none } } 0).1
      = generateError "Missing authorization code"
    ∧ (OAuth.callback c4Config { code := some "c", state := none }
        { tokenResponse :=
            { ok := true, access_token := none, refresh_token := none,
              expires_in := none },
          profileResponse := { ok := true, body := none } } 0).1
      = generateError "Failed to obtain access token"
    ∧ (OAuth.callback c4Config { code := some "c", state := none }
        { tokenResponse :=
            { ok := false, access_token := some "t", refresh_token := none,
              expires_in := none },
          profileResponse := { ok := true, body := none } } 0).1
      = generateError "OAuth callback failed" :=
  ⟨(c4_callback_error_paths c4Config { code := none, state := none } _ 0).1 rfl,
    ((c4_callback_error_paths c4Config { code := some "c", state := none } _ 0).2.1
      (by decide) rfl (by decide)),
    ((c4_callback_error_paths c4Config { code := some "c", state := none } _ 0).2.2
      (by decide) rfl)⟩

/-- Counterexample for C5: a well-formed three-segment token whose payload
decodes with `exp = 1`, read at epoch-second 100, is expired — the body of
`verifyToken` does throw "Token expired" — yet `authenticate` surfaces the
generic failure "Invalid JWT token", not a `TokenExpired` failure. -/
theorem c5_counterexample :
    JWT.verifyTokenBody c5Decode "h.p.s" 100 = Except.error "Token expired"
    ∧ JWT.authenticate c5Decode c5Request 100 = generateError "Invalid JWT token"
    ∧ generateError "Invalid JWT token" ≠ generateError "Token expired" :=
  ⟨rfl, rfl, by decide⟩

/-- C5 as amended: for every bearer token whose three dot-separated
segments are non-empty and whose payload decodes to an `exp` claim that is
non-zero (truthy) and strictly in the past, the expiry check inside
`verifyToken` throws "Token expired", but `verifyToken`'s own catch
rethrows the generic "Invalid token" and `authenticate` returns the single
failure "Invalid JWT token"; no distinct `TokenExpired` failure ever
reaches the caller. -/
theorem c5_expired_token_generic_failure
    (decode : String → Option JWT.JWTPayload) (req : JWT.JWTRequest)
    (nowSec : Int) (tok : String) (p : JWT.JWTPayload) (e : Int)
    (hext : JWT.extractToken req = some tok)
    (hne : tok ≠ "")
    (h0 : (JWT.splitDot tok).getD 0 "" ≠ "")
    (h1 : (JWT.splitDot tok).getD 1 "" ≠ "")
    (h2 : (JWT.splitDot tok).getD 2 "" ≠ "")
    (hdec : decode ((JWT.splitDot tok).getD 1 "") = some p)
    (hexp : p.exp = some e) (hez : e ≠ 0) (hlt : e < nowSec) :
    JWT.verifyTokenBody decode tok nowSec = Except.error "Token expired"
    ∧ JWT.verifyToken decode tok nowSec = Except.error "Invalid token"
    ∧ JWT.authenticate decode req nowSec = generateError "Invalid JWT token" := by
  have hbody : JWT.verifyTokenBody decode tok nowSec = Except.error "Token expired" := by
    unfold JWT.verifyTokenBody
    rw [if_neg (by
      simp only [Bool.or_eq_true, beq_iff_eq, not_or]
      exact ⟨⟨h0, h1⟩, h2⟩)]
    simp only [hdec, hexp]
    rw [if_pos ⟨hez, hlt⟩]
  have hver : JWT.verifyToken decode tok nowSec = Except.error "Invalid token" := by
    unfold JWT.verifyToken
    rw [hbody]
  refine ⟨hbody, hver, ?_⟩
  unfold JWT.authenticate
  rw [hext]
  show (if (tok == "") = true then generateError "No JWT token provided"
    else match JWT.verifyToken decode tok nowSec with
      | Except.error _ => generateError "Invalid JWT token"
      | Except.ok q => generateSuccess (JWT.mapPayloadToUser q) none none)
    = generateError "Invalid JWT token"
  rw [if_neg (by simp [hne]), hver]

/-- Witness for the amended C5 at the concrete expired token "h.p.s". -/
theorem c5_expired_token_generic_failure_witness :
    JWT.verifyTokenBody c5Decode "h.p.s" 100 = Except.error "Token expired"
    ∧ JWT.verifyToken c5Decode "h.p.s" 100 = Except.error "Invalid token"
    ∧ JWT.authenticate c5Decode c5Request 100 = generateError "Invalid JWT token" :=
  c5_expired_token_generic_failure c5Decode c5Request 100 "h.p.s"
    { exp := some 1, sub := some "subj", id := none, username := none,
      preferred_username := none, email := none, raw := "claims" } 1
    (by decide) (by decide) (by decide) (by decide) (by decide) (by decide) rfl
    (by decide) (by decide)

/-- C6: the local strategy's authenticate — an absent username or password
field fails `MissingCredentials` ("Missing username or password"); with
both fields present (non-empty) and no verifier configured it fails
`VerifierNotConfigured` ("verifyCredentials not configured"); a configured
verifier returning no match fails `InvalidCredentials`; a raising verifier
is caught into `AuthenticationFailed` (the exception never propagates —
the result is an `AuthResult`, not an exception); a resolving verifier
yields success with that user. -/
theorem c6_local_strategy_outcomes (config : Local.LocalConfig)
    (body : Option (List (String × String))) :
    ((Local.bodyField body (Local.fieldOrDefault config.usernameField "username") = none
        ∨ Local.bodyField body (Local.fieldOrDefault config.passwordField "password") = none) →
      Local.authenticate config body = generateError "Missing username or password")
    ∧ ∀ u pw,
        Local.bodyField body (Local.fieldOrDefault config.usernameField "username") = some u →
        u ≠ "" →
        Local.bodyField body (Local.fieldOrDefault config.passwordField "password") = some pw →
        pw ≠ "" →
        ((config.verifyCredentials = none →
            Local.authenticate config body = generateError "verifyCredentials not configured")
        ∧ ∀ verify, config.verifyCredentials = some verify →
            ((verify u pw = Except.ok none →
                Local.authenticate config body = generateError "Invalid credentials")
            ∧ (∀ err, verify u pw = Except.error err →
                Local.authenticate config body = generateError "Authentication failed")
            ∧ (∀ usr, verify u pw = Except.ok (some usr) →
                Local.authenticate config body = generateSuccess usr none none))) := by
  constructor
  · intro h
    unfold Local.authenticate
    rcases h with h | h <;> rw [h] <;> simp [jsTruthy]
  · intro u pw hu hune hpw hpwne
    have hne : (!(jsTruthy (Local.bodyField body
          (Local.fieldOrDefault config.usernameField "username")))
        || !(jsTruthy (Local.bodyField body
          (Local.fieldOrDefault config.passwordField "password")))) = false := by
      rw [hu, hpw]
      simp [jsTruthy, hune, hpwne]
    constructor
    · intro hnone
      unfold Local.authenticate
      rw [if_neg (by rw [hne]; simp), hnone]
    · intro verify hsome
      refine ⟨fun hv => ?_, fun err hv => ?_, fun usr hv => ?_⟩ <;>
        · unfold Local.authenticate
          rw [if_neg (by rw [hne]; simp), hsome, hu, hpw]
          simp only [Local.strOrEmpty]
          rw [hv]

/-- Witness for C6: all five outcomes at concrete configurations and
bodies. -/
theorem c6_local_strategy_outcomes_witness :
    Local.authenticate
        { usernameField := none, passwordField := none, verifyCredentials := none }
        (some [("password", "p")])
      = generateError "Missing username or password"
    ∧ Local.authenticate
        { usernameField := none, passwordField := none, verifyCredentials := none }
        c6Body
      = generateError "verifyCredentials not configured"
    ∧ Local.authenticate
        { usernameField := none, passwordField := none,
          verifyCredentials := some c6VerifyNull } c6Body
      = generateError "Invalid credentials"
    ∧ Local.authenticate
        { usernameField := none, passwordField := none,
          verifyCredentials := some c6VerifyThrow } c6Body
      = generateError "Authentication failed"
    ∧ Local.authenticate
        { usernameField := none, passwordField := none,
          verifyCredentials := some c6VerifyOk } c6Body
      = generateSuccess
          { id := "user-1", username := some "u", email := none, profile := none }
          none none :=
  ⟨(c6_local_strategy_outcomes _ _).1 (Or.inl (by decide)),
    ((c6_local_strategy_outcomes _ c6Body).2 "u" "p" (by decide) (by decide)
      (by decide) (by decide)).1 rfl,
    ((((c6_local_strategy_outcomes _ c6Body).2 "u" "p" (by decide) (by decide)
      (by decide) (by decide)).2 c6VerifyNull rfl)).1 rfl,
    ((((c6_local_strategy_outcomes _ c6Body).2 "u" "p" (by decide) (by decide)
      (by decide) (by decide)).2 c6VerifyThrow rfl)).2.1 () rfl,
    ((((c6_local_strategy_outcomes _ c6Body).2 "u" "p" (by decide) (by decide)
      (by decide) (by decide)).2 c6VerifyOk rfl)).2.2 _ rfl⟩

/-- C1: for every OAuth callback whose candidate identity
`(strategyName, providerId)` already has a matching link in storage (and
storage is referentially intact: every link's owner row exists), the
callback's user-resolution step returns an existing owning user and leaves
the store unchanged — no new user, no new link; when no link matches, it
creates exactly one user seeded from the candidate (id defaulted to a
fresh uuid only when the candidate id is falsy, username/email coerced by
`|| null`, profile snapshot kept) and exactly one link binding that user
to `(strategyName, providerId, profile, tokens)`. -/
theorem c1_callback_resolve_or_create (dur : Option Int) (st : Store)
    (strategyName : String) (candidate : AuthUser)
    (tokens : Option TokenBundle) (freshUserId freshLinkId : String) :
    (∀ l0, st.links.find?
          (fun l => l.strategyName == strategyName && l.strategyId == candidate.id)
        = some l0 →
      (∀ l2 ∈ st.links, ∃ u ∈ st.users, u.id = l2.userId) →
      ∃ u, u ∈ st.users ∧ u.id = l0.userId
        ∧ Queries.getUserByStrategy st strategyName candidate.id = some u
        ∧ callbackResolveUser { databaseInitialized := true, sessionDuration := dur }
            st strategyName candidate tokens freshUserId freshLinkId
          = Except.ok (u, st))
    ∧ (st.links.find?
          (fun l => l.strategyName == strategyName && l.strategyId == candidate.id)
        = none →
      callbackResolveUser { databaseInitialized := true, sessionDuration := dur }
          st strategyName candidate tokens freshUserId freshLinkId
        = Except.ok
            ({ id := if candidate.id == "" then freshUserId else candidate.id,
               username := jsOrNull candidate.username,
               email := jsOrNull candidate.email,
               profile := candidate.profile },
             { users := st.users ++
                 [{ id := if candidate.id == "" then freshUserId else candidate.id,
                    username := jsOrNull candidate.username,
                    email := jsOrNull candidate.email,
                    profile := candidate.profile }],
               links := st.links ++
                 [{ id := freshLinkId,
                    userId := if candidate.id == "" then freshUserId else candidate.id,
                    strategyName := strategyName,
                    strategyId := candidate.id,
                    profile := candidate.profile,
                    tokens := tokens }],
               sessions := st.sessions })) := by
  constructor
  · intro l0 hfind hintegrity
    have hmem : l0 ∈ st.links := List.mem_of_find?_eq_some hfind
    obtain ⟨u0, hu0mem, hu0id⟩ := hintegrity l0 hmem
    have hsome : (st.users.find? (fun u => u.id == l0.userId)).isSome = true := by
      rw [List.find?_isSome]
      exact ⟨u0, hu0mem, by simp [hu0id]⟩
    obtain ⟨u, hu⟩ := Option.isSome_iff_exists.mp hsome
    have humem : u ∈ st.users := List.mem_of_find?_eq_some hu
    have huid : u.id = l0.userId := by
      have := List.find?_some hu
      simpa using this
    have hq : Queries.getUserByStrategy st strategyName candidate.id = some u := by
      unfold Queries.getUserByStrategy
      rw [hfind]
      exact hu
    refine ⟨u, humem, huid, hq, ?_⟩
    unfold callbackResolveUser
    rw [hq]
  · intro hfind
    have hq : Queries.getUserByStrategy st strategyName candidate.id = none := by
      unfold Queries.getUserByStrategy
      rw [hfind]
    unfold callbackResolveUser
    rw [hq]
    unfold Queries.createUser linkStrategy Queries.createUserStrategy
    simp [ite_self, Except.map]

/-- Witness for C1: with the link present the existing user is returned
and the store is unchanged; on an empty store exactly one user and one
link are created. -/
theorem c1_callback_resolve_or_create_witness :
    callbackResolveUser { databaseInitialized := true, sessionDuration := none }
        c1Store "github" c1Candidate none "fresh-u" "fresh-l"
      = Except.ok (c1User, c1Store)
    ∧ callbackResolveUser { databaseInitialized := true, sessionDuration := none }
        c1EmptyStore "github" c1Candidate none "fresh-u" "fresh-l"
      = Except.ok
          ({ id := "gh-9", username := some "alice", email := some "a@x",
             profile := some "snapshot" },
           { users := [{ id := "gh-9", username := some "alice",
                         email := some "a@x", profile := some "snapshot" }],
             links := [{ id := "fresh-l", userId := "gh-9",
                         strategyName := "github", strategyId := "gh-9",
                         profile := some "snapshot", tokens := none }],
             sessions := [] }) := by
  constructor
  · obtain ⟨u, _, _, hq, hres⟩ :=
      (c1_callback_resolve_or_create none c1Store "github" c1Candidate none
        "fresh-u" "fresh-l").1 c1Link (by decide)
        (by
          intro l2 hl2
          refine ⟨c1User, by decide, ?_⟩
          have : l2 = c1Link := by
            simpa [c1Store] using hl2
          rw [this]
          decide)
    have hu : u = c1User := by
      have h2 : Queries.getUserByStrategy c1Store "github" c1Candidate.id
          = some c1User := by decide
      rw [hq] at h2
      exact (Option.some.injEq _ _ ▸ h2).symm ▸ rfl
    rw [hu] at hres
    exact hres
  · have h :=
      (c1_callback_resolve_or_create none c1EmptyStore "github" c1Candidate none
        "fresh-u" "fresh-l").2 (by decide)
    exact h.trans rfl

/-- Folding a concrete middle segment into a concrete concatenation. -/
lemma append_left_concrete (a b c d : String) (h : b ++ c = d) :
    (a ++ b) ++ c = a ++ d := by
  rw [String.append_assoc, h]

/-- A pattern sitting inside the concrete query prefix is contained in the
whole URL. -/
lemma strContains_mid (a C E S P pat Q : String) (h : (P ++ pat) ++ Q = C) :
    strContains (((a ++ C) ++ E) ++ S) pat := by
  refine ⟨a ++ P, (Q ++ E) ++ S, ?_⟩
  rw [← h]
  simp only [String.append_assoc]

/-- The state parameter (name plus encoded value) is contained in the
whole URL. -/
lemma strContains_state (a C CP E S : String) (h : CP ++ "state=" = C) :
    strContains (((a ++ C) ++ E) ++ S) ("state=" ++ E) := by
  refine ⟨a ++ CP, S, ?_⟩
  rw [← h]
  simp only [String.append_assoc]

/-- A pattern sitting inside the concrete suffix is contained in the whole
URL. -/
lemma strContains_tail (X S P pat Q : String) (h : (P ++ pat) ++ Q = S) :
    strContains (X ++ S) pat := by
  refine ⟨X ++ P, Q, ?_⟩
  rw [← h]
  simp only [String.append_assoc]

/-- UTF-8 encoding of a character is at least one byte. -/
lemma utf8Bytes_ne_nil (c : Char) : OAuth.utf8Bytes c ≠ [] := by
  unfold OAuth.utf8Bytes
  split_ifs <;> simp

/-- Encoding of a character is never empty. -/
lemma encodeChar_ne_nil (c : Char) : OAuth.encodeChar c ≠ [] := by
  unfold OAuth.encodeChar
  split_ifs
  · simp
  · simp
  · cases hu : OAuth.utf8Bytes c with
    | nil => exact absurd hu (utf8Bytes_ne_nil c)
    | cons b rest =>
      simp [List.flatMap_cons]

/-- Unreserved characters pass through the encoder unchanged. -/
lemma encodeChar_of_unreserved {c : Char} (h : OAuth.isUrlUnreserved c = true) :
    OAuth.encodeChar c = [c] := by
  by_cases hsp : (c == ' ') = true
  · exfalso
    have hc : c = ' ' := by simpa using hsp
    rw [hc] at h
    exact absurd h (by decide)
  · unfold OAuth.encodeChar
    rw [if_neg hsp, if_pos h]

/-- A string of unreserved characters encodes character-wise to itself. -/
lemma flatMap_encodeChar_of_unreserved (l : List Char)
    (h : ∀ c ∈ l, OAuth.isUrlUnreserved c = true) :
    l.flatMap OAuth.encodeChar = l := by
  induction l with
  | nil => rfl
  | cons hd tl ih =>
    rw [List.flatMap_cons, encodeChar_of_unreserved (h hd (List.mem_cons_self hd tl)),
      ih (fun c hc => h c (List.mem_cons_of_mem hd hc))]
    rfl

/-- A string of unreserved characters (such as a UUID) is its own
encoding. -/
lemma urlencode_of_unreserved {s : String}
    (h : ∀ c ∈ s.data, OAuth.isUrlUnreserved c = true) :
    OAuth.urlencode s = s := by
  unfold OAuth.urlencode
  rw [flatMap_encodeChar_of_unreserved s.data h]

/-- The encoded value is empty exactly for the empty input. -/
lemma urlencode_eq_empty_iff (s : String) :
    OAuth.urlencode s = "" ↔ s = "" := by
  constructor
  · intro h
    have hdata : s.data.flatMap OAuth.encodeChar = [] := by
      have := congrArg String.data h
      simpa [OAuth.urlencode] using this
    cases hs : s.data with
    | nil =>
      apply String.ext
      rw [hs]
    | cons hd tl =>
      rw [hs, List.flatMap_cons] at hdata
      exact absurd (List.append_eq_nil.mp hdata).1 (encodeChar_ne_nil hd)
  · intro h
    rw [h]
    rfl

/-- C7: OAuth authenticate on `{clientId := "cid",
callbackURL := "http://h/cb", scope := ["a","b"]}` performs no network
fetch, and redirects to the authorize URL whose serialized query contains
`client_id=cid`, `redirect_uri=http%3A%2F%2Fh%2Fcb`, `response_type=code`
and `scope=a+b`, plus a `state` parameter equal to the encoded fresh state
value: non-empty whenever the generated state is, and differing between
two calls whose generated states differ (state values are UUIDs, built
from unreserved characters). -/
theorem c7_oauth_authenticate_redirect (cs aurl tu uiu s1 s2 : String) :
    OAuth.authenticate (c7Config cs aurl tu uiu) s1
      = ({ success := true, user := none, error := none,
           redirect := some (OAuth.buildAuthURL (c7Config cs aurl tu uiu) s1),
           tokens := none }, [])
    ∧ OAuth.buildAuthURL (c7Config cs aurl tu uiu) s1
        = ((aurl ++ "?client_id=cid&redirect_uri=http%3A%2F%2Fh%2Fcb&response_type=code&state=")
            ++ OAuth.urlencode s1) ++ "&scope=a+b"
    ∧ strContains (OAuth.buildAuthURL (c7Config cs aurl tu uiu) s1) "client_id=cid"
    ∧ strContains (OAuth.buildAuthURL (c7Config cs aurl tu uiu) s1)
        "redirect_uri=http%3A%2F%2Fh%2Fcb"
    ∧ strContains (OAuth.buildAuthURL (c7Config cs aurl tu uiu) s1) "response_type=code"
    ∧ strContains (OAuth.buildAuthURL (c7Config cs aurl tu uiu) s1) "scope=a+b"
    ∧ strContains (OAuth.buildAuthURL (c7Config cs aurl tu uiu) s1)
        ("state=" ++ OAuth.urlencode s1)
    ∧ (s1 ≠ "" → OAuth.urlencode s1 ≠ "")
    ∧ ((∀ c ∈ s1.data, OAuth.isUrlUnreserved c = true) → OAuth.urlencode s1 = s1)
    ∧ (s1 ≠ s2 → (∀ c ∈ s1.data, OAuth.isUrlUnreserved c = true) →
        (∀ c ∈ s2.data, OAuth.isUrlUnreserved c = true) →
        OAuth.urlencode s1 ≠ OAuth.urlencode s2) := by
  have hurl : OAuth.buildAuthURL (c7Config cs aurl tu uiu) s1
      = ((aurl ++ "?client_id=cid&redirect_uri=http%3A%2F%2Fh%2Fcb&response_type=code&state=")
          ++ OAuth.urlencode s1) ++ "&scope=a+b" := by
    simp only [OAuth.buildAuthURL, c7Config]
    rw [show OAuth.urlencode "cid" = "cid" from by decide,
      show OAuth.urlencode "http://h/cb" = "http%3A%2F%2Fh%2Fcb" from by decide,
      show OAuth.urlencode (OAuth.scopeJoin (some ["a", "b"])) = "a+b" from by decide]
    rw [append_left_concrete aurl "?" "client_id=" "?client_id=" (by decide)]
    rw [append_left_concrete aurl "?client_id=" "cid" "?client_id=cid" (by decide)]
    rw [append_left_concrete aurl "?client_id=cid" "&redirect_uri="
      "?client_id=cid&redirect_uri=" (by decide)]
    rw [append_left_concrete aurl "?client_id=cid&redirect_uri="
      "http%3A%2F%2Fh%2Fcb"
      "?client_id=cid&redirect_uri=http%3A%2F%2Fh%2Fcb" (by decide)]
    rw [append_left_concrete aurl
      "?client_id=cid&redirect_uri=http%3A%2F%2Fh%2Fcb" "&response_type=code"
      "?client_id=cid&redirect_uri=http%3A%2F%2Fh%2Fcb&response_type=code" (by decide)]
    rw [append_left_concrete aurl
      "?client_id=cid&redirect_uri=http%3A%2F%2Fh%2Fcb&response_type=code" "&state="
      "?client_id=cid&redirect_uri=http%3A%2F%2Fh%2Fcb&response_type=code&state="
      (by decide)]
    rw [append_left_concrete
      ((aurl ++ "?client_id=cid&redirect_uri=http%3A%2F%2Fh%2Fcb&response_type=code&state=")
        ++ OAuth.urlencode s1)
      "&scope=" "a+b" "&scope=a+b" (by decide)]
  refine ⟨rfl, hurl, ?_, ?_, ?_, ?_, ?_, ?_, ?_, ?_⟩
  · rw [hurl]
    exact strContains_mid aurl _ _ _ "?" _
      "&redirect_uri=http%3A%2F%2Fh%2Fcb&response_type=code&state=" (by decide)
  · rw [hurl]
    exact strContains_mid aurl _ _ _ "?client_id=cid&" _
      "&response_type=code&state=" (by decide)
  · rw [hurl]
    exact strContains_mid aurl _ _ _
      "?client_id=cid&redirect_uri=http%3A%2F%2Fh%2Fcb&" _ "&state=" (by decide)
  · rw [hurl]
    exact strContains_tail _ _ "&" _ "" (by decide)
  · rw [hurl]
    exact strContains_state aurl _
      "?client_id=cid&redirect_uri=http%3A%2F%2Fh%2Fcb&response_type=code&" _ _
      (by decide)
  · intro h hc
    exact h ((urlencode_eq_empty_iff s1).mp hc)
  · exact fun h => urlencode_of_unreserved h
  · intro hne h1 h2 hcontra
    apply hne
    rw [urlencode_of_unreserved h1, urlencode_of_unreserved h2] at hcontra
    exact hcontra

/-- Witness for C7 at concrete states "aaaa" and "bbbb": the state
parameter value is non-empty and differs between the two calls. -/
theorem c7_oauth_authenticate_redirect_witness :
    OAuth.urlencode "aaaa" ≠ ""
    ∧ OAuth.urlencode "aaaa" = "aaaa"
    ∧ OAuth.urlencode "aaaa" ≠ OAuth.urlencode "bbbb"
    ∧ strContains
        (OAuth.buildAuthURL (c7Config "sec" "https://p/authorize" "t" "u") "aaaa")
        "client_id=cid" :=
  ⟨(c7_oauth_authenticate_redirect "sec" "https://p/authorize" "t" "u" "aaaa" "bbbb").2.2.2.2.2.2.2.1
      (by decide),
    (c7_oauth_authenticate_redirect "sec" "https://p/authorize" "t" "u" "aaaa" "bbbb").2.2.2.2.2.2.2.2.1
      (by decide),
    (c7_oauth_authenticate_redirect "sec" "https://p/authorize" "t" "u" "aaaa" "bbbb").2.2.2.2.2.2.2.2.2
      (by decide) (by decide) (by decide),
    (c7_oauth_authenticate_redirect "sec" "https://p/authorize" "t" "u" "aaaa" "bbbb").2.2.1⟩

end Allow
